import Mathlib

/-!
Verification of the realtime connection manager of `src/lib/websocket.ts`
(class `WebSocketManager`): connection lifecycle, exponential-backoff
reconnection, message classification, threshold-derived alerts, the
listener registry, and outbound send.

Numbers on the wire are modelled as `Rat` (the threshold literals 6.5,
8.5, 0.5, 1.0 are exact in both binary floating point and `Rat`, and the
code only compares them with `<` and `>`). `Date.now()` and
`Math.random()` are passed in as explicit `Nat` parameters. `setTimeout`
is modelled by appending the requested delay to a log of scheduled
reconnect timers: the code discards the value returned by `setTimeout`,
so no handle to a pending timer is ever held and none can be cleared.
-/

namespace AquaNexus

/-- `WebSocket.readyState` values of the browser transport. -/
inductive ReadyState where
  | connecting
  | opened
  | closing
  | closed
deriving DecidableEq, Repr

/-- A transport handle: `id` distinguishes distinct `new WebSocket(...)`
objects (reference identity); `readyState` is the transport's state. -/
structure WSHandle where
  id : Nat
  readyState : ReadyState
deriving DecidableEq, Repr

/-- The mutable fields of `WebSocketManager`: `ws` (the transport handle or
`null`), `reconnectAttempts`, `isConnecting`, plus `pendingTimers`, the log
of delays passed to `setTimeout` in `scheduleReconnect` (the code never
stores a timer handle, so scheduled timers are never cancelled). -/
structure ManagerState where
  ws : Option WSHandle
  reconnectAttempts : Nat
  isConnecting : Bool
  pendingTimers : List Nat
deriving DecidableEq, Repr

/-- `maxReconnectAttempts = 5` in the source. -/
def maxReconnectAttempts : Nat := 5

/-- `reconnectDelay = 1000` (ms) in the source. -/
def reconnectDelay : Nat := 1000

/-- The field values of a freshly constructed manager. -/
def freshManager : ManagerState :=
  { ws := none, reconnectAttempts := 0, isConnecting := false, pendingTimers := [] }

/-- `scheduleReconnect()`: if the attempt counter has reached
`maxReconnectAttempts`, log and return; otherwise increment the counter and
schedule a reconnect after `reconnectDelay * 2 ^ (newCounter - 1)` ms. -/
def scheduleReconnect (s : ManagerState) : ManagerState :=
  if s.reconnectAttempts ≥ maxReconnectAttempts then s
  else
    { s with
      reconnectAttempts := s.reconnectAttempts + 1,
      pendingTimers := s.pendingTimers ++ [reconnectDelay * 2 ^ s.reconnectAttempts] }

/-- The second disjunct of the `connect()` guard:
`this.ws && this.ws.readyState === WebSocket.CONNECTING`. -/
def wsIsConnecting : Option WSHandle → Bool
  | some h => h.readyState == ReadyState.connecting
  | none => false

/-- `connect()`. The guard returns early when `isConnecting` is set or the
current handle's `readyState` is `CONNECTING`. Otherwise `isConnecting` is
set and `new WebSocket(wsUrl)` is attempted: `ok = true` models successful
construction (a fresh handle, in `CONNECTING` state, overwrites `this.ws`);
`ok = false` models the `catch` branch (construction threw before the
assignment, so `ws` is unchanged, `isConnecting` is reset and a reconnect
is scheduled). -/
def connect (ok : Bool) (fresh : Nat) (s : ManagerState) : ManagerState :=
  if s.isConnecting || wsIsConnecting s.ws then s
  else if ok then
    { s with isConnecting := true, ws := some ⟨fresh, ReadyState.connecting⟩ }
  else scheduleReconnect { s with isConnecting := false }

/-- `disconnect()`: if a handle is present, call `close()` on it and clear
the field. Nothing else is touched: no flag is recorded and no timer is
cleared (the transport's own close event is delivered afterwards and runs
the `onclose` handler, modelled separately by `onclose`). -/
def disconnect (s : ManagerState) : ManagerState :=
  if s.ws.isSome then { s with ws := none } else s

/-- `getConnectionStatus()`. -/
def getConnectionStatus (s : ManagerState) : String :=
  match s.ws with
  | none => "disconnected"
  | some h =>
    match h.readyState with
    | ReadyState.opened => "connected"
    | ReadyState.connecting => "connecting"
    | _ => "disconnected"

/-- Repeated invocation of `scheduleReconnect`, as happens on consecutive
connection failures (each failure's close/catch path calls it once). -/
def iterSched : Nat → ManagerState → ManagerState
  | 0, s => s
  | k + 1, s => iterSched k (scheduleReconnect s)

/-- A manager holding an open connection (the state right after a
successful open: `onopen` reset `isConnecting` and the attempt counter). -/
def connectedState : ManagerState :=
  { ws := some ⟨0, ReadyState.opened⟩, reconnectAttempts := 0,
    isConnecting := false, pendingTimers := [] }

/-- A manager in the middle of a connection attempt. -/
def connectingState : ManagerState :=
  { ws := some ⟨0, ReadyState.connecting⟩, reconnectAttempts := 0,
    isConnecting := true, pendingTimers := [] }

/-- The status values a sensor reading can carry. -/
inductive SensorStatus where
  | normal
  | warning
  | critical
deriving DecidableEq, Repr

/-- The fields of the untyped `data: any` payload that the four message
handlers read. Absent (`undefined`) string fields are `none`; the numeric
sensor channels are read as numbers (`Rat`). -/
structure RawData where
  id : Option String := none
  deviceMac : Option String := none
  timestamp : Option String := none
  temperature : Rat := 0
  ph : Rat := 0
  dissolvedOxygen : Rat := 0
  turbidity : Rat := 0
  ammonia : Rat := 0
  nitrite : Rat := 0
  nitrate : Rat := 0
  status : String := ""
  batteryLevel : Option Rat := none
  signalStrength : Option Rat := none
  type : String := ""
  severity : String := ""
  message : String := ""
  acknowledged : Option Bool := none
deriving DecidableEq, Repr

/-- The wire envelope `WebSocketMessage`. -/
structure WebSocketMessage where
  type : String
  data : RawData
  timestamp : String
  deviceMac : Option String
deriving DecidableEq, Repr

/-- The `SensorReading` entity built by `handleSensorData`. -/
structure SensorReading where
  id : String
  deviceMac : Option String
  timestamp : String
  temperature : Rat
  ph : Rat
  dissolvedOxygen : Rat
  turbidity : Rat
  ammonia : Rat
  nitrite : Rat
  nitrate : Rat
  status : SensorStatus
deriving DecidableEq, Repr

/-- The `Alert` entity. -/
structure Alert where
  id : String
  deviceMac : Option String
  type : String
  severity : String
  message : String
  timestamp : String
  acknowledged : Bool
deriving DecidableEq, Repr

/-- The normalized object emitted on `device_status`. -/
structure DeviceUpdate where
  mac : Option String
  status : String
  lastSeen : String
  batteryLevel : Option Rat
  signalStrength : Option Rat
deriving DecidableEq, Repr

/-- Payloads of the in-process events the manager emits. -/
inductive EventData where
  | readingEv (r : SensorReading)
  | alertEv (a : Alert)
  | deviceEv (d : DeviceUpdate)
  | heartbeatEv (deviceMac : Option String) (timestamp : String) (status : String)
  | connectionEv (status : String)
deriving DecidableEq, Repr

/-- JavaScript `a || b` on possibly-undefined strings: `a` when present and
truthy (non-empty), else `b`. -/
def orTruthy (a b : Option String) : Option String :=
  match a with
  | some s => if s = "" then b else some s
  | none => b

/-- Abstraction of `new Date(ts || Date.now()).toISOString()`: the
timestamp string when present and truthy, else the current time `now`. -/
def toISOString (ts : Option String) (now : Nat) : String :=
  match ts with
  | some s => if s = "" then "iso:now:" ++ toString now else "iso:" ++ s
  | none => "iso:now:" ++ toString now

/-- `determineSensorStatus`: the `issues` array after the four threshold
checks (the code pushes the four tags in this order). Decimal thresholds
are written with `mkRat` so they reduce in the kernel:
`mkRat 13 2 = 6.5`, `mkRat 17 2 = 8.5`, `mkRat 1 2 = 0.5`. -/
def statusIssues (d : RawData) : List String :=
  (if d.temperature < 18 ∨ d.temperature > 28 then ["temperature"] else []) ++
  (if d.ph < mkRat 13 2 ∨ d.ph > mkRat 17 2 then ["ph"] else []) ++
  (if d.dissolvedOxygen < 5 then ["oxygen"] else []) ++
  (if d.ammonia > mkRat 1 2 then ["ammonia"] else [])

/-- `determineSensorStatus`: `normal` for zero issues, `warning` for at
most two, `critical` otherwise. -/
def determineSensorStatus (d : RawData) : SensorStatus :=
  let issues := statusIssues d
  if issues.length = 0 then SensorStatus.normal
  else if issues.length ≤ 2 then SensorStatus.warning
  else SensorStatus.critical

/-- Modelled from the spec (§4.3, for comparison with the source): the
number of the four status conditions that hold simultaneously —
temperature outside [18,28], pH outside [6.5,8.5], dissolved oxygen < 5,
ammonia > 0.5. -/
def statusIssueCountSpec (d : RawData) : Nat :=
  (if d.temperature < 18 ∨ d.temperature > 28 then 1 else 0) +
  (if d.ph < mkRat 13 2 ∨ d.ph > mkRat 17 2 then 1 else 0) +
  (if d.dissolvedOxygen < 5 then 1 else 0) +
  (if d.ammonia > mkRat 1 2 then 1 else 0)

/-- `checkForAlerts`: the four alert rules, evaluated in source order
(temperature, ph, oxygen, ammonia), each pushing one `critical`,
unacknowledged `Alert`. `t` is `Date.now()` used in the generated ids. -/
def checkForAlerts (t : Nat) (r : SensorReading) : List Alert :=
  (if r.temperature < 15 ∨ r.temperature > 32 then
    [{ id := "temp_alert_" ++ toString t, deviceMac := r.deviceMac,
       type := "temperature", severity := "critical",
       message := "Critical temperature: " ++ toString r.temperature ++ "°C",
       timestamp := r.timestamp, acknowledged := false }] else []) ++
  (if r.ph < 6 ∨ r.ph > 9 then
    [{ id := "ph_alert_" ++ toString t, deviceMac := r.deviceMac,
       type := "ph", severity := "critical",
       message := "Critical pH level: " ++ toString r.ph,
       timestamp := r.timestamp, acknowledged := false }] else []) ++
  (if r.dissolvedOxygen < 3 then
    [{ id := "oxygen_alert_" ++ toString t, deviceMac := r.deviceMac,
       type := "oxygen", severity := "critical",
       message := "Low dissolved oxygen: " ++ toString r.dissolvedOxygen ++ " mg/L",
       timestamp := r.timestamp, acknowledged := false }] else []) ++
  (if r.ammonia > 1 then
    [{ id := "ammonia_alert_" ++ toString t, deviceMac := r.deviceMac,
       type := "ammonia", severity := "critical",
       message := "High ammonia level: " ++ toString r.ammonia ++ " mg/L",
       timestamp := r.timestamp, acknowledged := false }] else [])

/-- Modelled from the spec (§4.3 rule table, for comparison with the
source): whether the alert rule of a given category fires on a reading. -/
def alertRuleFires (r : SensorReading) : String → Bool
  | "temperature" => decide (r.temperature < 15 ∨ r.temperature > 32)
  | "ph" => decide (r.ph < 6 ∨ r.ph > 9)
  | "oxygen" => decide (r.dissolvedOxygen < 3)
  | "ammonia" => decide (r.ammonia > 1)
  | _ => false

/-- The spec's fixed rule order for alert categories. -/
def alertRuleOrder : List String := ["temperature", "ph", "oxygen", "ammonia"]

/-- The `SensorReading` constructed by `handleSensorData` (`t` models
`Date.now()`, `rnd` the random id suffix, `mac` the envelope's
`deviceMac`). -/
def mkSensorReading (t rnd : Nat) (d : RawData) (mac : Option String) : SensorReading :=
  { id := "reading_" ++ toString t ++ "_" ++ toString rnd,
    deviceMac := orTruthy mac d.deviceMac,
    timestamp := toISOString d.timestamp t,
    temperature := d.temperature, ph := d.ph,
    dissolvedOxygen := d.dissolvedOxygen, turbidity := d.turbidity,
    ammonia := d.ammonia, nitrite := d.nitrite, nitrate := d.nitrate,
    status := determineSensorStatus d }

/-- `handleSensorData`: emits the reading on `sensor_data`, then each
alert of `checkForAlerts`, in list order, on `alert`. -/
def handleSensorData (t rnd : Nat) (d : RawData) (mac : Option String) :
    List (String × EventData) :=
  let r := mkSensorReading t rnd d mac
  ("sensor_data", EventData.readingEv r) ::
    (checkForAlerts t r).map (fun a => ("alert", EventData.alertEv a))

/-- `handleDeviceStatus`. -/
def handleDeviceStatus (t : Nat) (d : RawData) : List (String × EventData) :=
  [("device_status", EventData.deviceEv
    { mac := d.deviceMac, status := d.status,
      lastSeen := toISOString d.timestamp t,
      batteryLevel := d.batteryLevel, signalStrength := d.signalStrength })]

/-- The fresh alert id `alert_${Date.now()}_${random}` generated by
`handleAlert` when the payload's id is absent or falsy. -/
def genAlertId (t rnd : Nat) : String :=
  "alert_" ++ toString t ++ "_" ++ toString rnd

/-- The `Alert` entity `handleAlert` builds from an inbound `alert`
payload: `id := data.id || <generated>`, `acknowledged := false`
(the payload's own `acknowledged` field is never read). -/
def alertFromWire (t rnd : Nat) (d : RawData) : Alert :=
  { id := match d.id with
      | some s => if s = "" then genAlertId t rnd else s
      | none => genAlertId t rnd,
    deviceMac := d.deviceMac, type := d.type, severity := d.severity,
    message := d.message, timestamp := toISOString d.timestamp t,
    acknowledged := false }

/-- `handleAlert`: emits the normalized alert on `alert`. -/
def handleAlert (t rnd : Nat) (d : RawData) : List (String × EventData) :=
  [("alert", EventData.alertEv (alertFromWire t rnd d))]

/-- `handleHeartbeat`. -/
def handleHeartbeat (t : Nat) (d : RawData) : List (String × EventData) :=
  [("heartbeat", EventData.heartbeatEv d.deviceMac (toISOString d.timestamp t) "online")]

/-- `handleMessage`: the `switch` on `message.type`; an unknown type falls
to the `default` branch, which only logs `console.warn`. The second
component collects (level, text) console lines produced by this dispatch. -/
def handleMessage (t rnd : Nat) (m : WebSocketMessage) :
    List (String × EventData) × List (String × String) :=
  if m.type = "sensor_data" then (handleSensorData t rnd m.data m.deviceMac, [])
  else if m.type = "device_status" then (handleDeviceStatus t m.data, [])
  else if m.type = "alert" then (handleAlert t rnd m.data, [])
  else if m.type = "heartbeat" then (handleHeartbeat t m.data, [])
  else ([], [("warn", "Unknown message type:")])

/-- The `onmessage` handler: `JSON.parse` then `handleMessage`, the whole
body in a `try/catch`. `raw = none` models a payload that fails to
deserialize: the `catch` arm logs `console.error` and nothing else runs.
Returns (state, emitted events, console lines); the manager state is
passed through untouched because the handler never writes a field. -/
def onmessage (t rnd : Nat) (raw : Option WebSocketMessage) (s : ManagerState) :
    ManagerState × List (String × EventData) × List (String × String) :=
  match raw with
  | some m => (s, handleMessage t rnd m)
  | none => (s, [], [("error", "Error parsing WebSocket message:")])

/-- The `onclose` handler: clears `isConnecting` and `ws`, emits a
`connection`/`disconnected` event, then calls `scheduleReconnect()` —
unconditionally, with no manual-disconnect flag to consult. -/
def onclose (s : ManagerState) : ManagerState × List (String × EventData) :=
  (scheduleReconnect { s with isConnecting := false, ws := none },
   [("connection", EventData.connectionEv "disconnected")])

/-- The `onopen` handler: clears `isConnecting`, resets the attempt
counter, emits `connection`/`connected`. -/
def onopen (s : ManagerState) : ManagerState × List (String × EventData) :=
  ({ s with isConnecting := false, reconnectAttempts := 0 },
   [("connection", EventData.connectionEv "connected")])

/-- `send(message)`: transmit only when a handle exists and its
ready-state is `OPEN`; otherwise log one warning and drop the message.
Returns (state, transmitted frames, console lines) — the state is passed
through untouched: nothing is queued, buffered or retried. -/
def send (s : ManagerState) (msg : String) :
    ManagerState × List String × List (String × String) :=
  match s.ws with
  | some h =>
    if h.readyState = ReadyState.opened then (s, [msg], [])
    else (s, [], [("warn", "WebSocket is not connected")])
  | none => (s, [], [("warn", "WebSocket is not connected")])

/-- The listener registry: event name to ordered list of callback handles
(callbacks are identified by reference; `Nat` ids model that identity). -/
def Registry : Type := List (String × List Nat)

/-- `this.listeners.get(event)`. -/
def getListeners (reg : Registry) (event : String) : Option (List Nat) :=
  (List.find? (fun p => p.1 == event) reg).map (fun p => p.2)

/-- `off(event, callback)`: if a list exists for the event, remove the
first entry equal (by reference) to the callback — `indexOf` finds the
first match and `splice` removes exactly it; a missing callback leaves the
list unchanged. -/
def off (reg : Registry) (event : String) (cb : Nat) : Registry :=
  match List.find? (fun p => p.1 == event) reg with
  | none => reg
  | some _ =>
    List.map (fun p => if p.1 == event then (p.1, List.erase p.2 cb) else p) reg

/-- The callbacks `emit(event, data)` invokes, in order: the event's
listener list if present, nothing otherwise. -/
def emitTargets (reg : Registry) (event : String) : List Nat :=
  match getListeners reg event with
  | some l => l
  | none => []

/-- Spec §8 Scenario A payload: temperature 16, pH 7.0, dissolved oxygen
8, ammonia 0.1 (`mkRat 1 10`). -/
def scenarioAData : RawData :=
  { temperature := 16, ph := 7, dissolvedOxygen := 8, ammonia := mkRat 1 10 }

/-- Spec §8 Scenario B payload: temperature 13, pH 9.5 (`mkRat 19 2`),
dissolved oxygen 2, ammonia 1.2 (`mkRat 6 5`). -/
def scenarioBData : RawData :=
  { temperature := 13, ph := mkRat 19 2, dissolvedOxygen := 2, ammonia := mkRat 6 5 }

/-- The alerts among a list of emitted (event, payload) pairs, in emission
order. -/
def emittedAlerts (evs : List (String × EventData)) : List Alert :=
  evs.filterMap (fun e =>
    if e.1 = "alert" then
      match e.2 with
      | EventData.alertEv a => some a
      | _ => none
    else none)

/-- An inbound `alert` payload that arrives pre-acknowledged and with an
empty-string (falsy) id. -/
def wireAlertPayload : RawData :=
  { id := some "", deviceMac := some "AA:BB:CC:DD:EE:FF",
    timestamp := some "2024-01-01T00:00:00Z", type := "temperature",
    severity := "high", message := "wire alert", acknowledged := some true }

/-- C1 counterexample: with an open connection (`getConnectionStatus` is
`connected`, `isConnecting` false), `connect()` is not a no-op — the guard
only checks `isConnecting` and the `CONNECTING` ready-state, so a second
transport handle (id 1) is constructed while handle 0 is still open. -/
theorem connect_while_connected_creates_second_handle :
    getConnectionStatus connectedState = "connected" ∧
    connect true 1 connectedState ≠ connectedState ∧
    (connect true 1 connectedState).ws = some ⟨1, ReadyState.connecting⟩ := by
  refine ⟨rfl, ?_, rfl⟩
  decide

/-- C1 (amended): `connect()` is a no-op exactly under the source guard —
while `isConnecting` is set or the handle's ready-state is `CONNECTING`
(the `Connecting` state). While `Connected` with `isConnecting` clear, the
guard does not fire and `connect()` installs a brand-new transport handle,
replacing the reference to the still-open one. -/
theorem connect_idempotent_only_while_connecting :
    (∀ (ok : Bool) (fresh : Nat) (s : ManagerState),
      s.isConnecting = true ∨ wsIsConnecting s.ws = true →
      connect ok fresh s = s) ∧
    (∀ (fresh : Nat) (s : ManagerState) (h : WSHandle),
      s.isConnecting = false → s.ws = some h → h.readyState = ReadyState.opened →
      (connect true fresh s).ws = some ⟨fresh, ReadyState.connecting⟩) := by
  constructor
  · intro ok fresh s hg
    unfold connect
    rcases hg with hg | hg <;> simp [hg]
  · intro fresh s h hic hws hrs
    unfold connect wsIsConnecting
    simp [hic, hws, hrs]

/-- Witness for C1's amended theorem at concrete states. -/
theorem connect_idempotent_only_while_connecting_witness :
    connect true 2 connectingState = connectingState ∧
    (connect true 2 connectedState).ws = some ⟨2, ReadyState.connecting⟩ :=
  ⟨connect_idempotent_only_while_connecting.1 true 2 connectingState (Or.inl rfl),
   connect_idempotent_only_while_connecting.2 2 connectedState ⟨0, ReadyState.opened⟩
     rfl rfl rfl⟩

/-- C2: the code schedules an automatic reconnect after a manual
`disconnect()`. `disconnect()` cancels nothing (it leaves the scheduled
timers of every state untouched — the code never stores a timer handle),
and when the transport's close event for the manual `close()` arrives the
`onclose` handler unconditionally calls `scheduleReconnect`, which here
schedules a 1000 ms reconnect timer. -/
theorem manual_disconnect_still_schedules_reconnect :
    (disconnect connectedState).pendingTimers = [] ∧
    ((onclose (disconnect connectedState)).1).pendingTimers = [1000] ∧
    (∀ s : ManagerState, (disconnect s).pendingTimers = s.pendingTimers) := by
  refine ⟨rfl, by decide, ?_⟩
  intro s
  unfold disconnect
  split <;> rfl

/-- C3: over consecutive failures starting from a fresh manager, the nth
scheduled reconnect delay is `reconnectDelay * 2 ^ (n - 1)` (1000, 2000,
4000, 8000, 16000 ms for n = 1..5); a sixth failure schedules nothing, and
once the counter has reached `maxReconnectAttempts`, `scheduleReconnect`
returns the state unchanged (no further timer, no exception — it is a
total function). -/
theorem reconnect_backoff_delays :
    (∀ n : Nat, n < maxReconnectAttempts →
      ((iterSched (n + 1) freshManager).pendingTimers).getD n 0 = reconnectDelay * 2 ^ n) ∧
    (iterSched 5 freshManager).pendingTimers = [1000, 2000, 4000, 8000, 16000] ∧
    iterSched 6 freshManager = iterSched 5 freshManager ∧
    (∀ s : ManagerState, maxReconnectAttempts ≤ s.reconnectAttempts →
      scheduleReconnect s = s) := by
  refine ⟨by decide, by decide, by decide, ?_⟩
  intro s hs
  unfold scheduleReconnect
  simp [hs]

/-- Witness for C3's theorem: the third attempt's delay is 4000 ms, and a
manager whose counter sits at the cap is left unchanged. -/
theorem reconnect_backoff_delays_witness :
    ((iterSched 3 freshManager).pendingTimers).getD 2 0 = reconnectDelay * 2 ^ 2 ∧
    scheduleReconnect ⟨none, 5, false, []⟩ = ⟨none, 5, false, []⟩ :=
  ⟨reconnect_backoff_delays.1 2 (by decide),
   reconnect_backoff_delays.2.2.2 ⟨none, 5, false, []⟩ (by decide)⟩

/-- C4: `determineSensorStatus` returns exactly the status the issue count
dictates — `normal` for zero of the four conditions, `warning` for one or
two, `critical` for three or more — and Scenario A (temperature 16, pH 7,
dissolved oxygen 8, ammonia 0.1) gets status `warning` with no alerts. -/
theorem determineSensorStatus_counts_issues :
    (∀ d : RawData, determineSensorStatus d =
      (if statusIssueCountSpec d = 0 then SensorStatus.normal
       else if statusIssueCountSpec d ≤ 2 then SensorStatus.warning
       else SensorStatus.critical)) ∧
    determineSensorStatus scenarioAData = SensorStatus.warning ∧
    checkForAlerts 0 (mkSensorReading 0 0 scenarioAData none) = [] := by
  refine ⟨?_, by decide, by decide⟩
  intro d
  unfold determineSensorStatus statusIssues statusIssueCountSpec
  by_cases h1 : d.temperature < 18 ∨ d.temperature > 28 <;>
    by_cases h2 : d.ph < mkRat 13 2 ∨ d.ph > mkRat 17 2 <;>
      by_cases h3 : d.dissolvedOxygen < 5 <;>
        by_cases h4 : d.ammonia > mkRat 1 2 <;>
          simp [h1, h2, h3, h4]

/-- C5: every alert `checkForAlerts` produces has severity `critical` and
`acknowledged = false`; the emitted categories are exactly the fired rules
in the fixed order temperature, ph, oxygen, ammonia; and on Scenario B
(temperature 13, pH 9.5, dissolved oxygen 2, ammonia 1.2) the
`sensor_data` handler emits four `alert` events, in that order. -/
theorem checkForAlerts_fixed_rule_order :
    (∀ (t : Nat) (r : SensorReading),
      ((checkForAlerts t r).all fun a =>
        a.severity == "critical" && a.acknowledged == false) = true) ∧
    (∀ (t : Nat) (r : SensorReading),
      (checkForAlerts t r).map Alert.type = alertRuleOrder.filter (alertRuleFires r)) ∧
    (emittedAlerts (handleSensorData 0 0 scenarioBData none)).map Alert.type =
      alertRuleOrder := by
  refine ⟨?_, ?_, by decide⟩
  · intro t r
    unfold checkForAlerts
    by_cases h1 : r.temperature < 15 ∨ r.temperature > 32 <;>
      by_cases h2 : r.ph < 6 ∨ r.ph > 9 <;>
        by_cases h3 : r.dissolvedOxygen < 3 <;>
          by_cases h4 : r.ammonia > 1 <;>
            simp [h1, h2, h3, h4]
  · intro t r
    unfold checkForAlerts alertRuleOrder alertRuleFires
    by_cases h1 : r.temperature < 15 ∨ r.temperature > 32 <;>
      by_cases h2 : r.ph < 6 ∨ r.ph > 9 <;>
        by_cases h3 : r.dissolvedOxygen < 3 <;>
          by_cases h4 : r.ammonia > 1 <;>
            simp [h1, h2, h3, h4, List.filter]

/-- C6: the alert thresholds lie inside the status-violation ranges, so a
reading (whose four checked channels were copied from the payload, as
`handleSensorData` does) with at least one alert never has a `normal`
status derived from that payload. -/
theorem alert_implies_status_not_normal :
    ∀ (t : Nat) (d : RawData) (r : SensorReading),
      r.temperature = d.temperature → r.ph = d.ph →
      r.dissolvedOxygen = d.dissolvedOxygen → r.ammonia = d.ammonia →
      checkForAlerts t r ≠ [] → determineSensorStatus d ≠ SensorStatus.normal := by
  intro t d r ht hp ho ha hne hnorm
  apply hne
  have hlen : (statusIssues d).length = 0 := by
    simp only [determineSensorStatus] at hnorm
    split_ifs at hnorm with h0 h2
    exact h0
  have c1 : ¬ (d.temperature < 18 ∨ d.temperature > 28) := by
    intro hc; simp [statusIssues, hc] at hlen
  have c2 : ¬ (d.ph < mkRat 13 2 ∨ d.ph > mkRat 17 2) := by
    intro hc; simp [statusIssues, hc] at hlen
  have c3 : ¬ (d.dissolvedOxygen < 5) := by
    intro hc; simp [statusIssues, hc] at hlen
  have c4 : ¬ (d.ammonia > mkRat 1 2) := by
    intro hc; simp [statusIssues, hc] at hlen
  push_neg at c1 c2 c3 c4
  have k1 : (6 : Rat) < mkRat 13 2 := by norm_num [mkRat]
  have k2 : (mkRat 17 2 : Rat) < 9 := by norm_num [mkRat]
  have k3 : (mkRat 1 2 : Rat) < 1 := by norm_num [mkRat]
  have na1 : ¬ (r.temperature < 15 ∨ r.temperature > 32) := by
    rw [ht]; push_neg; exact ⟨by linarith [c1.1], by linarith [c1.2]⟩
  have na2 : ¬ (r.ph < 6 ∨ r.ph > 9) := by
    rw [hp]; push_neg; exact ⟨by linarith [c2.1], by linarith [c2.2]⟩
  have na3 : ¬ (r.dissolvedOxygen < 3) := by
    rw [ho]; linarith [c3]
  have na4 : ¬ (r.ammonia > 1) := by
    rw [ha]; linarith [c4]
  unfold checkForAlerts
  simp [na1, na2, na3, na4]

/-- Witness for C6's theorem: Scenario B's payload fires alerts, and its
status is indeed not `normal`. -/
theorem alert_implies_status_not_normal_witness :
    determineSensorStatus scenarioBData ≠ SensorStatus.normal :=
  alert_implies_status_not_normal 0 scenarioBData
    (mkSensorReading 0 0 scenarioBData none) rfl rfl rfl rfl (by decide)

/-- C7 counterexample: with callback 7 registered twice for `alert`,
`off` removes only the first registration, so the following `emit` still
invokes callback 7 — the claim's universal "never invokes cb" is false. -/
theorem off_then_emit_still_invokes_duplicate :
    7 ∈ emitTargets (off [("alert", [7, 7])] "alert" 7) "alert" := by
  decide

/-- C7 (amended): `off` removes exactly the first reference match
(`emitTargets` after `off` is `List.erase` of the old targets), it is a
no-op on every event's targets when the callback is not registered, and —
provided the callback was registered at most once — an `emit` after `off`
never invokes it. -/
theorem off_removes_first_match :
    (∀ (reg : Registry) (e : String) (cb : Nat),
      emitTargets (off reg e cb) e = (emitTargets reg e).erase cb) ∧
    (∀ (reg : Registry) (e : String) (cb : Nat),
      cb ∉ emitTargets reg e →
      ∀ e2 : String, emitTargets (off reg e cb) e2 = emitTargets reg e2) ∧
    (∀ (reg : Registry) (e : String) (cb : Nat),
      (emitTargets reg e).count cb ≤ 1 →
      cb ∉ emitTargets (off reg e cb) e) := by
  have key : ∀ (reg : Registry) (e : String) (cb : Nat),
      emitTargets (off reg e cb) e = (emitTargets reg e).erase cb := by
    intro reg e cb
    cases hf : List.find? (fun p => p.1 == e) reg with
    | none => simp [off, emitTargets, getListeners, hf]
    | some p =>
      have hfe : p.1 = e := by
        have := List.find?_some hf
        simpa using this
      have hcomp : ((fun q : String × List Nat => q.1 == e) ∘
          (fun q : String × List Nat => if q.1 == e then (q.1, q.2.erase cb) else q)) =
          (fun q : String × List Nat => q.1 == e) := by
        funext q
        by_cases h : q.1 = e <;> simp [h]
      simp only [off, emitTargets, getListeners, hf]
      rw [List.find?_map, hcomp, hf]
      simp [hfe]
  refine ⟨key, ?_, ?_⟩
  · intro reg e cb hmem e2
    by_cases he : e2 = e
    · subst he
      rw [key]
      exact List.erase_of_not_mem hmem
    · cases hf : List.find? (fun p => p.1 == e) reg with
      | none => simp [off, hf]
      | some p =>
        have hcomp : ((fun q : String × List Nat => q.1 == e2) ∘
            (fun q : String × List Nat => if q.1 == e then (q.1, q.2.erase cb) else q)) =
            (fun q : String × List Nat => q.1 == e2) := by
          funext q
          by_cases h : q.1 = e <;> simp [h, he, Ne.symm he]
        simp only [off, emitTargets, getListeners, hf]
        rw [List.find?_map, hcomp]
        cases hg : List.find? (fun p => p.1 == e2) reg with
        | none => rfl
        | some q =>
          have hqe : q.1 = e2 := by
            have := List.find?_some hg
            simpa using this
          have hqne : ¬ (q.1 = e) := by
            rw [hqe]
            exact fun hcon => he hcon
          simp [hqne]
  · intro reg e cb hcount
    rw [key]
    rw [← List.count_eq_zero]
    have := List.count_erase_self cb (emitTargets reg e)
    omega

/-- Witness for C7's amended theorem at a concrete registry (callback 7
registered once for `alert`, callback 9 not registered). -/
theorem off_removes_first_match_witness :
    emitTargets (off [("alert", [5, 7])] "alert" 7) "alert" =
      ([5, 7].erase 7 : List Nat) ∧
    emitTargets (off [("alert", [5, 7])] "alert" 9) "alert" =
      emitTargets [("alert", [5, 7])] "alert" ∧
    7 ∉ emitTargets (off [("alert", [5, 7])] "alert" 7) "alert" :=
  ⟨off_removes_first_match.1 [("alert", [5, 7])] "alert" 7,
   off_removes_first_match.2.1 [("alert", [5, 7])] "alert" 9 (by decide) "alert",
   off_removes_first_match.2.2 [("alert", [5, 7])] "alert" 7 (by decide)⟩

/-- C8: a payload that fails to deserialize is logged (`console.error`)
and dropped — no event, no throw (the handler is a total function), state
unchanged; a well-formed message whose type is none of the four known ones
is logged as a warning and dropped with no event and unchanged state. -/
theorem malformed_and_unknown_messages_dropped :
    (∀ (t rnd : Nat) (s : ManagerState),
      onmessage t rnd none s =
        (s, [], [("error", "Error parsing WebSocket message:")])) ∧
    (∀ (t rnd : Nat) (s : ManagerState) (m : WebSocketMessage),
      m.type ≠ "sensor_data" → m.type ≠ "device_status" → m.type ≠ "alert" →
      m.type ≠ "heartbeat" →
      onmessage t rnd (some m) s = (s, [], [("warn", "Unknown message type:")])) := by
  constructor
  · intro t rnd s
    rfl
  · intro t rnd s m h1 h2 h3 h4
    simp [onmessage, handleMessage, h1, h2, h3, h4]

/-- Witness for C8's theorem: a message of unknown type `bogus` is dropped
with one warning and no event, leaving a fresh manager unchanged. -/
theorem malformed_and_unknown_messages_dropped_witness :
    onmessage 0 0 (some ⟨"bogus", {}, "", none⟩) freshManager =
      (freshManager, [], [("warn", "Unknown message type:")]) :=
  malformed_and_unknown_messages_dropped.2 0 0 freshManager ⟨"bogus", {}, "", none⟩
    (by decide) (by decide) (by decide) (by decide)

/-- C9: in every state other than `Connected` (per `getConnectionStatus`),
`send` transmits nothing, logs exactly one warning and returns (it is a
total function, so nothing is thrown) with the manager state untouched —
nothing is queued, buffered or retried; only in the `Connected` state is
the message transmitted, and then without any warning. -/
theorem send_drops_unless_connected :
    (∀ (s : ManagerState) (msg : String), getConnectionStatus s ≠ "connected" →
      send s msg = (s, [], [("warn", "WebSocket is not connected")])) ∧
    (∀ (s : ManagerState) (msg : String), getConnectionStatus s = "connected" →
      send s msg = (s, [msg], [])) := by
  constructor
  · intro s msg h
    cases hw : s.ws with
    | none => simp [send, hw]
    | some hd =>
      have hne : hd.readyState ≠ ReadyState.opened := by
        intro hr
        exact h (by simp [getConnectionStatus, hw, hr])
      simp [send, hw, hne]
  · intro s msg h
    cases hw : s.ws with
    | none =>
      have hds : getConnectionStatus s = "disconnected" := by
        simp [getConnectionStatus, hw]
      rw [hds] at h
      exact absurd h (by decide)
    | some hd =>
      cases hrs : hd.readyState with
      | opened => simp [send, hw, hrs]
      | connecting =>
        have hds : getConnectionStatus s = "connecting" := by
          simp [getConnectionStatus, hw, hrs]
        rw [hds] at h
        exact absurd h (by decide)
      | closing =>
        have hds : getConnectionStatus s = "disconnected" := by
          simp [getConnectionStatus, hw, hrs]
        rw [hds] at h
        exact absurd h (by decide)
      | closed =>
        have hds : getConnectionStatus s = "disconnected" := by
          simp [getConnectionStatus, hw, hrs]
        rw [hds] at h
        exact absurd h (by decide)

/-- Witness for C9's theorem: sending while disconnected (fresh manager)
drops with one warning; sending while connected transmits the frame. -/
theorem send_drops_unless_connected_witness :
    send freshManager "ping" =
      (freshManager, [], [("warn", "WebSocket is not connected")]) ∧
    send connectedState "ping" = (connectedState, ["ping"], []) :=
  ⟨send_drops_unless_connected.1 freshManager "ping" (by decide),
   send_drops_unless_connected.2 connectedState "ping" (by decide)⟩

/-- The generated alert id `alert_${t}_${rnd}` is never the empty string. -/
theorem genAlertId_ne_empty (t rnd : Nat) : genAlertId t rnd ≠ "" := by
  unfold genAlertId
  intro h
  have hlen := congrArg String.length h
  simp only [String.length_append] at hlen
  have h6 : ("alert_" : String).length = 6 := by decide
  have h1 : ("_" : String).length = 1 := by decide
  have h0 : ("" : String).length = 0 := by decide
  rw [h6, h1, h0] at hlen
  omega

/-- C10 counterexample: the payload's id can be present yet falsy (the
empty string); `data.id || generated` then discards it, so the emitted
alert does not carry the payload's id as the claim states. -/
theorem wire_alert_present_empty_id_discarded :
    wireAlertPayload.id = some "" ∧
    (alertFromWire 5 9 wireAlertPayload).id = genAlertId 5 9 ∧
    genAlertId 5 9 ≠ "" := by
  exact ⟨rfl, rfl, by decide⟩

/-- C10 (amended): the alert `handleAlert` emits always has
`acknowledged = false` no matter what the payload carried, its id is never
empty, and it equals the payload's id whenever that id is present and
truthy (non-empty); a present-but-empty id, like an absent one, is
replaced by a freshly generated id. -/
theorem handleAlert_normalizes_wire_alerts :
    ∀ (t rnd : Nat) (d : RawData),
      (alertFromWire t rnd d).acknowledged = false ∧
      (alertFromWire t rnd d).id ≠ "" ∧
      (∀ s : String, d.id = some s → s ≠ "" → (alertFromWire t rnd d).id = s) ∧
      handleAlert t rnd d =
        [("alert", EventData.alertEv (alertFromWire t rnd d))] := by
  intro t rnd d
  refine ⟨rfl, ?_, ?_, rfl⟩
  · unfold alertFromWire
    cases hid : d.id with
    | none => exact genAlertId_ne_empty t rnd
    | some s =>
      by_cases hs : s = ""
      · simpa [hs] using genAlertId_ne_empty t rnd
      · simp [hs]
  · intro s hsid hsne
    unfold alertFromWire
    simp [hsid, hsne]

/-- Witness for C10's amended theorem: a wire alert arriving with
`acknowledged = true` and a truthy id `abc` is emitted unacknowledged and
keeps its id. -/
theorem handleAlert_normalizes_wire_alerts_witness :
    (alertFromWire 3 4 { id := some "abc", acknowledged := some true }).acknowledged
        = false ∧
    (alertFromWire 3 4 { id := some "abc", acknowledged := some true }).id = "abc" :=
  ⟨(handleAlert_normalizes_wire_alerts 3 4
      { id := some "abc", acknowledged := some true }).1,
   (handleAlert_normalizes_wire_alerts 3 4
      { id := some "abc", acknowledged := some true }).2.2.1 "abc" rfl (by decide)⟩

end AquaNexus
